import Mathlib

/-!
Verification of the FM-radio appliance control core: the UI state machine
(`AppState.process_event`), the `UIElement` focus ring, the button debouncer,
the quadrature decoder, and the tuner coordinator's polling cycle, shallowly
embedded from the Rust sources.
-/

/-- Number of preset slots (`const NUM_PRESETS: u8 = 4` in `main.rs`). -/
def NUM_PRESETS : Nat := 4

/-- `2^32`, the modulus of Rust `u32` arithmetic. -/
def U32_MOD : Nat := 2 ^ 32

/-- The `UIElement` enum from `main.rs`: the cyclic focus targets of the UI.
The `u8` preset index is modelled as `Nat`; validity (`index < NUM_PRESETS`)
is an explicit predicate. -/
inductive UIElement where
  | SeekDown
  | FreqControl
  | SeekUp
  | Preset (index : Nat)
  | VolumeControl
deriving DecidableEq, Repr

/-- A `UIElement` is a valid variant when a preset index is in range. -/
def UIElement.valid : UIElement → Prop
  | .Preset i => i < NUM_PRESETS
  | _ => True

instance (e : UIElement) : Decidable e.valid := by
  cases e <;> simp [UIElement.valid] <;> infer_instance

/-- `UIElement::prev` from `state.rs`. The Rust `Preset(0)` arm precedes the
`Preset(x) => Preset(x - 1)` arm, so the `u8` subtraction never underflows;
`Nat` subtraction via the `x+1` pattern is exact. -/
def UIElement.prev : UIElement → UIElement
  | .SeekDown => .VolumeControl
  | .FreqControl => .SeekDown
  | .SeekUp => .FreqControl
  | .Preset 0 => .SeekUp
  | .Preset (x + 1) => .Preset x
  | .VolumeControl => .Preset (NUM_PRESETS - 1)

/-- `UIElement::next` from `state.rs`; the guard `x < NUM_PRESETS - 1` keeps
the `u8` increment in range, so `Nat` addition is exact. -/
def UIElement.next : UIElement → UIElement
  | .SeekDown => .FreqControl
  | .FreqControl => .SeekUp
  | .SeekUp => .Preset 0
  | .Preset x => if x < NUM_PRESETS - 1 then .Preset (x + 1) else .VolumeControl
  | .VolumeControl => .SeekDown

/-- The `InputEvent` enum from `main.rs` (producers → UI state machine).
`u32`/`u8` payloads are modelled as `Nat`. -/
inductive InputEvent where
  | ShortPress
  | LongPress
  | ScrollDown
  | ScrollUp
  | ChangeFrequency (freq : Nat)
  | ChangeStationInfo (text : String)
  | ChangeRSSI (rssi : Nat)
deriving DecidableEq, Repr

/-- The `OutputCommand` enum from `main.rs` (UI state machine → tuner). -/
inductive OutputCommand where
  | SetFrequency (freq : Nat)
  | SetVolume (volume : Nat)
  | SeekUp
  | SeekDown
deriving DecidableEq, Repr

/-- The `AppState` struct from `main.rs`. -/
structure AppState where
  freq_khz : Nat
  volume : Nat
  station_info : String
  rssi : Nat
  cursor_at : UIElement
  cursor_selected : Bool
deriving DecidableEq, Repr

/-- `AppState::new` from `state.rs`. -/
def AppState.new : AppState :=
  { freq_khz := 100000
    volume := 5
    station_info := ""
    rssi := 0
    cursor_at := .SeekDown
    cursor_selected := false }

/-- The NVS key-value store, restricted to the `u32` slots the state machine
touches: a map from key name to optionally-present stored value. -/
def Nvs : Type := String → Option Nat

/-- `nvs.set_u32 name value`: update one slot. -/
def Nvs.set (nvs : Nvs) (name : String) (value : Nat) : Nvs :=
  fun k => if k = name then some value else nvs k

/-- The empty store: every slot absent. -/
def Nvs.empty : Nvs := fun _ => none

/-- `PRESET_NAMES` from `state.rs`. -/
def PRESET_NAMES : List String := ["preset1", "preset2", "preset3", "preset4"]

/-- The distinct panic sites of `AppState::process_event`: the `todo!()` arm
for `ChangeStationInfo`, the final `unreachable!()` arm, and the
`PRESET_NAMES[preset as usize]` out-of-bounds index. -/
inductive PanicKind where
  | todoStationInfo
  | unreachableArm
  | presetIndexOOB
deriving DecidableEq, Repr

/-- `AppState::process_event` from `state.rs`, arm for arm in source order.
Sends on the command channel are returned as an ordered list; the NVS handle
is threaded through; each Rust panic site becomes an `Except.error`. `u32`
frequency arithmetic wraps modulo `2^32` (`freq_khz -= 100` has no bound
check in the source). -/
def process_event (s : AppState) (event : InputEvent) (nvs : Nvs) :
    Except PanicKind (AppState × Nvs × List OutputCommand) :=
  match s.cursor_at, s.cursor_selected, event with
  -- scrolling through UI elements
  | _, false, .ScrollDown => .ok ({ s with cursor_at := s.cursor_at.prev }, nvs, [])
  | _, false, .ScrollUp => .ok ({ s with cursor_at := s.cursor_at.next }, nvs, [])
  -- events from radio
  | _, _, .ChangeFrequency freq => .ok ({ s with freq_khz := freq }, nvs, [])
  | _, _, .ChangeStationInfo _ => .error .todoStationInfo
  | _, _, .ChangeRSSI rssi => .ok ({ s with rssi := rssi }, nvs, [])
  -- seek down
  | .SeekDown, false, .ShortPress => .ok (s, nvs, [.SeekDown])
  -- de/selecting frequency or volume control
  | .FreqControl, _, .ShortPress =>
      .ok ({ s with cursor_selected := !s.cursor_selected }, nvs, [])
  | .VolumeControl, _, .ShortPress =>
      .ok ({ s with cursor_selected := !s.cursor_selected }, nvs, [])
  -- frequency control            (u32 wrap-around: no bounds in the source)
  | .FreqControl, true, .ScrollDown =>
      let f := (s.freq_khz + (U32_MOD - 100)) % U32_MOD
      .ok ({ s with freq_khz := f }, nvs, [.SetFrequency f])
  | .FreqControl, true, .ScrollUp =>
      let f := (s.freq_khz + 100) % U32_MOD
      .ok ({ s with freq_khz := f }, nvs, [.SetFrequency f])
  -- seek up
  | .SeekUp, false, .ShortPress => .ok (s, nvs, [.SeekUp])
  -- select preset
  | .Preset preset, false, .ShortPress =>
      match PRESET_NAMES.get? preset with
      | none => .error .presetIndexOOB
      | some name =>
        match nvs name with
        | some freq => .ok ({ s with freq_khz := freq }, nvs, [.SetFrequency freq])
        | none => .ok (s, nvs, [])
  -- set preset
  | .Preset preset, false, .LongPress =>
      match PRESET_NAMES.get? preset with
      | none => .error .presetIndexOOB
      | some name => .ok (s, nvs.set name s.freq_khz, [])
  -- volume control
  | .VolumeControl, true, .ScrollDown =>
      if s.volume > 0 then
        .ok ({ s with volume := s.volume - 1 }, nvs, [.SetVolume (s.volume - 1)])
      else .ok (s, nvs, [])
  | .VolumeControl, true, .ScrollUp =>
      if s.volume < 15 then
        .ok ({ s with volume := s.volume + 1 }, nvs, [.SetVolume (s.volume + 1)])
      else .ok (s, nvs, [])
  -- ignore all other user inputs
  | _, _, .LongPress => .ok (s, nvs, [])
  -- any other combination of inputs should be unreachable
  | _, _, _ => .error .unreachableArm

example : process_event AppState.new .ScrollUp Nvs.empty =
    .ok ({ AppState.new with cursor_at := .FreqControl }, Nvs.empty, []) := by
  rfl

/-- Run a list of input events through `process_event`, threading state and
NVS, discarding emitted commands; the first panic aborts the run (mirrors the
event loop in `main`). -/
def run_events (s : AppState) (nvs : Nvs) :
    List InputEvent → Except PanicKind (AppState × Nvs)
  | [] => .ok (s, nvs)
  | ev :: rest =>
    match process_event s ev nvs with
    | .ok (s1, nvs1, _) => run_events s1 nvs1 rest
    | .error e => .error e

/-- The state invariant enforced by the transition table: the cursor is
selected only on the frequency or volume control. -/
def CursorInv (s : AppState) : Prop :=
  s.cursor_selected = true →
    s.cursor_at = UIElement.FreqControl ∨ s.cursor_at = UIElement.VolumeControl

/-- A state whose cursor is a valid `UIElement` variant. -/
def ValidState (s : AppState) : Prop := s.cursor_at.valid

/-- States (with their NVS store) reachable from `AppState::new` by successful
`process_event` steps, starting from an arbitrary store. -/
inductive Reachable : AppState → Nvs → Prop where
  | init (nvs : Nvs) : Reachable AppState.new nvs
  | step (s : AppState) (nvs : Nvs) (ev : InputEvent) (s1 : AppState) (nvs1 : Nvs)
      (cmds : List OutputCommand) :
      Reachable s nvs → process_event s ev nvs = .ok (s1, nvs1, cmds) →
      Reachable s1 nvs1

/-- The button debouncer's press classification from `input.rs`:
`match duration.as_millis() { 0..50 => (), 50..600 => ShortPress, 600.. => LongPress }`. -/
def classify_press (d : Nat) : Option InputEvent :=
  if d < 50 then none
  else if d < 600 then some .ShortPress
  else some .LongPress

/-- One rising clock edge of the quadrature decoder from `input.rs`: given the
current `second` flag and the sampled `clk`/`data` levels, return the new
`second` flag and the event sent, if any. -/
def encoder_step (second : Bool) (clk : Bool) (data : Bool) :
    Bool × Option InputEvent :=
  (!second,
    if !second then
      if data == clk then some .ScrollUp else some .ScrollDown
    else none)

/-- The decoder loop over a sequence of rising edges, each carrying the
`(clk, data)` levels sampled at that edge; yields per-edge emissions. -/
def encoder_run (second : Bool) : List (Bool × Bool) → List (Option InputEvent)
  | [] => []
  | (clk, data) :: rest =>
    let (second1, out) := encoder_step second clk data
    out :: encoder_run second1 rest

/-- `u8::abs_diff` on the modelled values. -/
def u8_abs_diff (a b : Nat) : Nat := if a ≤ b then b - a else a - b

/-- The tuner coordinator's loop-carried state (`prev_freq`, `prev_rssi`
in `tuner.rs`). -/
structure TunerState where
  prev_freq : Nat
  prev_rssi : Nat
deriving DecidableEq, Repr

/-- What the chip reports in one polling cycle: the status `stc` flag, the
RSSI and the current frequency. -/
structure ChipReading where
  stc : Bool
  rssi : Nat
  freq : Nat
deriving DecidableEq, Repr

/-- One polling cycle of `spawn_tuner_thread`, the event-emitting part: RSSI
hysteresis then the frequency report guarded by `prev_freq != freq && !status.stc`.
(The command drain of step 2 only writes to the chip and is outside this
pure model.) Returns the new loop state and the events sent, in order. -/
def tuner_cycle (ts : TunerState) (r : ChipReading) : TunerState × List InputEvent :=
  let (prev_rssi1, rssiEvents) :=
    if u8_abs_diff r.rssi ts.prev_rssi > 5 then (r.rssi, [InputEvent.ChangeRSSI r.rssi])
    else (ts.prev_rssi, [])
  let (prev_freq1, freqEvents) :=
    if ts.prev_freq ≠ r.freq ∧ r.stc = false then
      (r.freq, [InputEvent.ChangeFrequency r.freq])
    else (ts.prev_freq, [])
  (⟨prev_freq1, prev_rssi1⟩, rssiEvents ++ freqEvents)

/-- Iterate `tuner_cycle` over successive polling cycles, collecting all
emitted events in order. -/
def tuner_run (ts : TunerState) : List ChipReading → TunerState × List InputEvent
  | [] => (ts, [])
  | r :: rest =>
    let (ts1, evs1) := tuner_cycle ts r
    let (ts2, evs2) := tuner_run ts1 rest
    (ts2, evs1 ++ evs2)

/-- Claim C3: for every valid `UIElement` variant `e`, `e.next.prev = e` and
`e.prev.next = e`, both `next` and `prev` return valid variants, and the seven
elements form a single ring in the order SeekDown, FreqControl, SeekUp,
Preset 0 .. Preset 3, VolumeControl, back to SeekDown. -/
theorem C3_ui_ring_cycle (e : UIElement) (h : e.valid) :
    e.next.prev = e ∧ e.prev.next = e ∧ e.next.valid ∧ e.prev.valid ∧
    UIElement.SeekDown.next = .FreqControl ∧
    UIElement.FreqControl.next = .SeekUp ∧
    UIElement.SeekUp.next = .Preset 0 ∧
    (UIElement.Preset 0).next = .Preset 1 ∧
    (UIElement.Preset 1).next = .Preset 2 ∧
    (UIElement.Preset 2).next = .Preset 3 ∧
    (UIElement.Preset 3).next = .VolumeControl ∧
    UIElement.VolumeControl.next = .SeekDown := by
  cases e with
  | Preset i =>
      have h4 : i < 4 := h
      interval_cases i <;> decide
  | SeekDown => decide
  | FreqControl => decide
  | SeekUp => decide
  | VolumeControl => decide

/-- Witness for C3 at the concrete element `Preset 3`. -/
theorem C3_ui_ring_cycle_witness :
    (UIElement.Preset 3).next.prev = .Preset 3 :=
  (C3_ui_ring_cycle (.Preset 3) (by decide)).1

/-- Claim C9 (code evaluated at the failing input): processing a
`ChangeStationInfo` event reaches the `todo!()` arm and panics, for instance
on the initial state, contradicting the requirement that it not abort. -/
theorem C9_station_info_panics :
    process_event AppState.new (.ChangeStationInfo "KEXP") Nvs.empty =
      .error .todoStationInfo := rfl

/-- Claim C6: the button debouncer emits nothing for a press shorter than
50 ms, exactly one `ShortPress` for 50 ms up to but excluding 600 ms, and
exactly one `LongPress` from 600 ms on; the boundaries 49/50/599/600 fall on
the stated sides. -/
theorem C6_debounce_classification (d : Nat) :
    (d < 50 → classify_press d = none) ∧
    (50 ≤ d → d < 600 → classify_press d = some .ShortPress) ∧
    (600 ≤ d → classify_press d = some .LongPress) ∧
    classify_press 49 = none ∧
    classify_press 50 = some .ShortPress ∧
    classify_press 599 = some .ShortPress ∧
    classify_press 600 = some .LongPress := by
  refine ⟨?_, ?_, ?_, by decide, by decide, by decide, by decide⟩
  · intro h
    simp [classify_press, h]
  · intro h1 h2
    rw [classify_press, if_neg (by omega), if_pos h2]
  · intro h
    rw [classify_press, if_neg (by omega), if_neg (by omega)]

/-- Witness for C6 at the concrete duration 100 ms. -/
theorem C6_debounce_classification_witness :
    classify_press 100 = some .ShortPress :=
  (C6_debounce_classification 100).2.1 (by decide) (by decide)

/-- Claim C10: with the cursor selected on the frequency control, `ScrollDown`
computes `freq_khz - 100` in unchecked `u32` arithmetic, so for `freq_khz < 100`
the value wraps to `freq_khz + 2^32 - 100` (no clamping), and `ScrollUp`
computes `freq_khz + 100` with no upper bound, wrapping past `2^32 - 100`. -/
theorem C10_freq_unchecked_wrap (s : AppState) (nvs : Nvs)
    (hcur : s.cursor_at = .FreqControl) (hsel : s.cursor_selected = true)
    (hu32 : s.freq_khz < U32_MOD) :
    (process_event s .ScrollDown nvs =
      .ok ({ s with freq_khz := (s.freq_khz + (U32_MOD - 100)) % U32_MOD }, nvs,
        [.SetFrequency ((s.freq_khz + (U32_MOD - 100)) % U32_MOD)])) ∧
    (s.freq_khz < 100 →
      (s.freq_khz + (U32_MOD - 100)) % U32_MOD = s.freq_khz + (U32_MOD - 100) ∧
      U32_MOD - 100 ≤ (s.freq_khz + (U32_MOD - 100)) % U32_MOD) ∧
    (process_event s .ScrollUp nvs =
      .ok ({ s with freq_khz := (s.freq_khz + 100) % U32_MOD }, nvs,
        [.SetFrequency ((s.freq_khz + 100) % U32_MOD)])) ∧
    (U32_MOD - 100 ≤ s.freq_khz →
      (s.freq_khz + 100) % U32_MOD = s.freq_khz + 100 - U32_MOD ∧
      (s.freq_khz + 100) % U32_MOD < 100) := by
  have hm : U32_MOD = 4294967296 := by norm_num [U32_MOD]
  obtain ⟨f, v, si, rs, ca, cs⟩ := s
  simp only [AppState.cursor_at] at hcur
  simp only [AppState.cursor_selected] at hsel
  subst hcur
  subst hsel
  simp only [AppState.freq_khz] at hu32 ⊢
  refine ⟨rfl, ?_, rfl, ?_⟩ <;> intro h
  · rw [hm] at hu32 ⊢
    omega
  · rw [hm] at hu32 h ⊢
    omega

/-- Witness for C10 at freq 50 kHz (below the 100 kHz decrement). -/
theorem C10_freq_unchecked_wrap_witness :
    (50 + (U32_MOD - 100)) % U32_MOD = 50 + (U32_MOD - 100) :=
  ((C10_freq_unchecked_wrap
    { AppState.new with cursor_at := .FreqControl, cursor_selected := true, freq_khz := 50 }
    Nvs.empty rfl rfl (by norm_num [U32_MOD])).2.1 (by norm_num)).1

lemma encoder_run_length (s : Bool) (edges : List (Bool × Bool)) :
    (encoder_run s edges).length = edges.length := by
  induction edges generalizing s with
  | nil => rfl
  | cons e rest ih =>
      obtain ⟨clk, data⟩ := e
      simp [encoder_run, encoder_step, ih]

lemma encoder_run_getD (s : Bool) (edges : List (Bool × Bool)) (i : Nat)
    (h : i < edges.length) :
    ((encoder_run s edges).getD i none).isSome = (decide (i % 2 = 0) == !s) := by
  induction edges generalizing s i with
  | nil => simp at h
  | cons e rest ih =>
      obtain ⟨clk, data⟩ := e
      cases i with
      | zero =>
          cases s <;> by_cases hdc : data = clk <;>
            simp [encoder_run, encoder_step, hdc]
      | succ j =>
          have hj : j < rest.length := by
            simpa using Nat.lt_of_succ_lt_succ h
          have hrec := ih (!s) j hj
          have hflip : decide ((j + 1) % 2 = 0) = !decide (j % 2 = 0) := by
            rcases Nat.mod_two_eq_zero_or_one j with h2 | h2 <;> simp [Nat.add_mod, h2]
          simp only [encoder_run, encoder_step, List.getD_cons_succ, hrec, hflip]
          cases s <;> cases hb : decide (j % 2 = 0) <;> rfl

/-- Claim C7: on a rising clock edge with `second = false` the decoder emits
exactly one event, `ScrollUp` when `data == clk` and `ScrollDown` otherwise;
with `second = true` it emits nothing; `second` is negated on every edge; and
starting from `second = false`, exactly the edges at even 0-based position
(the odd-numbered ones counted from 1) produce an event. -/
theorem C7_quadrature_decoder (second clk data : Bool)
    (edges : List (Bool × Bool)) (i : Nat) (h : i < edges.length) :
    encoder_step false clk data =
      (true, some (if data == clk then .ScrollUp else .ScrollDown)) ∧
    encoder_step true clk data = (false, none) ∧
    (encoder_step second clk data).1 = !second ∧
    ((encoder_run false edges).getD i none).isSome = decide (i % 2 = 0) := by
  refine ⟨?_, rfl, rfl, ?_⟩
  · cases hdc : data == clk <;> simp [encoder_step, hdc]
  · rw [encoder_run_getD false edges i h]
    cases hb : decide (i % 2 = 0) <;> rfl

/-- Witness for C7 on a concrete three-edge trace, second edge (position 1)
silent. -/
theorem C7_quadrature_decoder_witness :
    ((encoder_run false [(true, true), (true, false), (false, false)]).getD 1
      none).isSome = decide (1 % 2 = 0) :=
  (C7_quadrature_decoder false true true
    [(true, true), (true, false), (false, false)] 1 (by decide)).2.2.2

lemma tuner_cycle_eq (ts : TunerState) (r : ChipReading) :
    tuner_cycle ts r =
      (⟨if ts.prev_freq ≠ r.freq ∧ r.stc = false then r.freq else ts.prev_freq,
        if u8_abs_diff r.rssi ts.prev_rssi > 5 then r.rssi else ts.prev_rssi⟩,
       (if u8_abs_diff r.rssi ts.prev_rssi > 5 then [InputEvent.ChangeRSSI r.rssi]
        else []) ++
       (if ts.prev_freq ≠ r.freq ∧ r.stc = false then
          [InputEvent.ChangeFrequency r.freq]
        else [])) := by
  by_cases h1 : u8_abs_diff r.rssi ts.prev_rssi > 5 <;>
    by_cases h2 : ts.prev_freq ≠ r.freq ∧ r.stc = false <;>
      simp [tuner_cycle, h1, h2]

lemma tuner_cycle_freq_not_mem (ts : TunerState) (r : ChipReading)
    (hstc : r.stc = true) (f : Nat) :
    InputEvent.ChangeFrequency f ∉ (tuner_cycle ts r).2 := by
  rw [tuner_cycle_eq]
  simp [hstc]

lemma tuner_run_no_freq (f : Nat) :
    ∀ (readings : List ChipReading) (ts : TunerState),
      (∀ x ∈ readings, x.stc = true) →
      InputEvent.ChangeFrequency f ∉ (tuner_run ts readings).2
  | [], ts, _ => by simp [tuner_run]
  | r0 :: rest, ts, hstc => by
      have h0 : r0.stc = true := hstc r0 (by simp)
      have hrest : ∀ x ∈ rest, x.stc = true := fun x hx => hstc x (by simp [hx])
      rcases htc : tuner_cycle ts r0 with ⟨ts1, evs1⟩
      rcases htr : tuner_run ts1 rest with ⟨ts2, evs2⟩
      have hnotc : InputEvent.ChangeFrequency f ∉ evs1 := by
        have := tuner_cycle_freq_not_mem ts r0 h0 f
        rwa [htc] at this
      have hnotr : InputEvent.ChangeFrequency f ∉ evs2 := by
        have := tuner_run_no_freq f rest ts1 hrest
        rwa [htr] at this
      simp [tuner_run, htc, htr, hnotc, hnotr]

/-- Claim C5: in one polling cycle a `ChangeFrequency` event is emitted iff
the frequency read differs from `prev_freq` and `stc` is false; the emitted
frequency is the one read and `prev_freq` is updated to it; and over any run
of cycles in which `stc` stays true, no `ChangeFrequency` is ever emitted. -/
theorem C5_tuner_frequency_reporting (ts : TunerState) (r : ChipReading)
    (readings : List ChipReading) (hstc : ∀ x ∈ readings, x.stc = true) :
    ((∃ f, InputEvent.ChangeFrequency f ∈ (tuner_cycle ts r).2) ↔
      (ts.prev_freq ≠ r.freq ∧ r.stc = false)) ∧
    (∀ f, InputEvent.ChangeFrequency f ∈ (tuner_cycle ts r).2 → f = r.freq) ∧
    (ts.prev_freq ≠ r.freq → r.stc = false →
      (tuner_cycle ts r).1.prev_freq = r.freq ∧
      InputEvent.ChangeFrequency r.freq ∈ (tuner_cycle ts r).2) ∧
    (∀ f, InputEvent.ChangeFrequency f ∉ (tuner_run ts readings).2) := by
  refine ⟨?_, ?_, ?_, fun f => tuner_run_no_freq f readings ts hstc⟩
  · rw [tuner_cycle_eq]
    by_cases h1 : u8_abs_diff r.rssi ts.prev_rssi > 5 <;>
      by_cases h2 : ts.prev_freq ≠ r.freq ∧ r.stc = false <;>
        simp [h1, h2]
  · intro f hf
    rw [tuner_cycle_eq] at hf
    by_cases h1 : u8_abs_diff r.rssi ts.prev_rssi > 5 <;>
      by_cases h2 : ts.prev_freq ≠ r.freq ∧ r.stc = false <;>
        simp [h1, h2] at hf <;> exact hf
  · intro hne hs
    rw [tuner_cycle_eq]
    simp [hne, hs]

/-- Witness for C5 on the spec scenario: frequency moves from 100000 to
100100 with `stc = false`, so exactly `ChangeFrequency 100100` is emitted. -/
theorem C5_tuner_frequency_reporting_witness :
    (⟨100000, 0⟩ : TunerState).prev_freq ≠ (⟨false, 0, 100100⟩ : ChipReading).freq ∧
    InputEvent.ChangeFrequency 100100 ∈
      (tuner_cycle ⟨100000, 0⟩ ⟨false, 0, 100100⟩).2 :=
  ⟨by decide,
    ((C5_tuner_frequency_reporting ⟨100000, 0⟩ ⟨false, 0, 100100⟩ []
      (by simp)).2.2.1 (by decide) rfl).2⟩

lemma process_event_vol_down (s : AppState) (nvs : Nvs)
    (hcur : s.cursor_at = .VolumeControl) (hsel : s.cursor_selected = true) :
    process_event s .ScrollDown nvs =
      if 0 < s.volume then
        .ok ({ s with volume := s.volume - 1 }, nvs, [.SetVolume (s.volume - 1)])
      else .ok (s, nvs, []) := by
  obtain ⟨f, v, si, rs, ca, cs⟩ := s
  simp only [AppState.cursor_at] at hcur
  simp only [AppState.cursor_selected] at hsel
  subst hcur
  subst hsel
  rfl

lemma process_event_vol_up (s : AppState) (nvs : Nvs)
    (hcur : s.cursor_at = .VolumeControl) (hsel : s.cursor_selected = true) :
    process_event s .ScrollUp nvs =
      if s.volume < 15 then
        .ok ({ s with volume := s.volume + 1 }, nvs, [.SetVolume (s.volume + 1)])
      else .ok (s, nvs, []) := by
  obtain ⟨f, v, si, rs, ca, cs⟩ := s
  simp only [AppState.cursor_at] at hcur
  simp only [AppState.cursor_selected] at hsel
  subst hcur
  subst hsel
  rfl

lemma volume_mode_run (evs : List InputEvent) :
    ∀ (s : AppState) (nvs : Nvs),
      s.cursor_at = .VolumeControl → s.cursor_selected = true → s.volume ≤ 15 →
      (∀ e ∈ evs, e = InputEvent.ScrollUp ∨ e = InputEvent.ScrollDown) →
      ∃ s1, run_events s nvs evs = .ok (s1, nvs) ∧ s1.volume ≤ 15 ∧
        s1.cursor_at = .VolumeControl ∧ s1.cursor_selected = true := by
  induction evs with
  | nil =>
      intro s nvs hcur hsel hvol _
      exact ⟨s, rfl, hvol, hcur, hsel⟩
  | cons e rest ih =>
      intro s nvs hcur hsel hvol hevs
      rcases hevs e (by simp) with he | he <;> subst he
      · rw [run_events, process_event_vol_up s nvs hcur hsel]
        by_cases hv : s.volume < 15
        · rw [if_pos hv]
          exact ih { s with volume := s.volume + 1 } nvs hcur hsel (by simp; omega)
            (fun x hx => hevs x (by simp [hx]))
        · rw [if_neg hv]
          exact ih s nvs hcur hsel hvol (fun x hx => hevs x (by simp [hx]))
      · rw [run_events, process_event_vol_down s nvs hcur hsel]
        by_cases hv : 0 < s.volume
        · rw [if_pos hv]
          exact ih { s with volume := s.volume - 1 } nvs hcur hsel (by simp; omega)
            (fun x hx => hevs x (by simp [hx]))
        · rw [if_neg hv]
          exact ih s nvs hcur hsel hvol (fun x hx => hevs x (by simp [hx]))

/-- Claim C4: with the cursor selected on the volume control and volume in
`[0,15]`, any sequence of scroll events keeps the volume in `[0,15]`
(`Nat` gives the lower bound by construction); `ScrollDown` at volume 0 and
`ScrollUp` at volume 15 change nothing and emit nothing, while in the
remaining cases the changed value is emitted as `SetVolume`. -/
theorem C4_volume_clamped (s : AppState) (nvs : Nvs) (evs : List InputEvent)
    (hcur : s.cursor_at = .VolumeControl) (hsel : s.cursor_selected = true)
    (hvol : s.volume ≤ 15)
    (hevs : ∀ e ∈ evs, e = InputEvent.ScrollUp ∨ e = InputEvent.ScrollDown) :
    (∃ s1, run_events s nvs evs = .ok (s1, nvs) ∧ s1.volume ≤ 15) ∧
    (s.volume = 0 → process_event s .ScrollDown nvs = .ok (s, nvs, [])) ∧
    (s.volume = 15 → process_event s .ScrollUp nvs = .ok (s, nvs, [])) ∧
    (0 < s.volume → process_event s .ScrollDown nvs =
      .ok ({ s with volume := s.volume - 1 }, nvs, [.SetVolume (s.volume - 1)])) ∧
    (s.volume < 15 → process_event s .ScrollUp nvs =
      .ok ({ s with volume := s.volume + 1 }, nvs, [.SetVolume (s.volume + 1)])) := by
  refine ⟨?_, ?_, ?_, ?_, ?_⟩
  · obtain ⟨s1, hrun, hv1, -, -⟩ := volume_mode_run evs s nvs hcur hsel hvol hevs
    exact ⟨s1, hrun, hv1⟩
  · intro h0
    rw [process_event_vol_down s nvs hcur hsel, h0]
    rfl
  · intro h15
    rw [process_event_vol_up s nvs hcur hsel, h15]
    rfl
  · intro hpos
    rw [process_event_vol_down s nvs hcur hsel, if_pos hpos]
  · intro hlt
    rw [process_event_vol_up s nvs hcur hsel, if_pos hlt]

/-- A concrete state: cursor selected on the volume control, volume zero. -/
def volZeroState : AppState :=
  { AppState.new with cursor_at := .VolumeControl, cursor_selected := true, volume := 0 }

/-- Witness for C4: at volume 0 a `ScrollDown` leaves the state unchanged and
emits nothing. -/
theorem C4_volume_clamped_witness :
    process_event volZeroState .ScrollDown Nvs.empty = .ok (volZeroState, Nvs.empty, []) :=
  (C4_volume_clamped volZeroState Nvs.empty [] rfl rfl (by norm_num [volZeroState])
    (by simp)).2.1 rfl

lemma process_event_preset_store (s : AppState) (nvs : Nvs) (i : Nat)
    (name : String) (hcur : s.cursor_at = .Preset i)
    (hsel : s.cursor_selected = false) (hi : PRESET_NAMES.get? i = some name) :
    process_event s .LongPress nvs = .ok (s, nvs.set name s.freq_khz, []) := by
  obtain ⟨f, v, si, rs, ca, cs⟩ := s
  simp only [AppState.cursor_at] at hcur
  simp only [AppState.cursor_selected] at hsel
  subst hcur
  subst hsel
  simp only [process_event, hi]

lemma process_event_preset_recall (s : AppState) (nvs : Nvs) (i : Nat)
    (name : String) (hcur : s.cursor_at = .Preset i)
    (hsel : s.cursor_selected = false) (hi : PRESET_NAMES.get? i = some name) :
    process_event s .ShortPress nvs =
      match nvs name with
      | some freq => .ok ({ s with freq_khz := freq }, nvs, [.SetFrequency freq])
      | none => .ok (s, nvs, []) := by
  obtain ⟨f, v, si, rs, ca, cs⟩ := s
  simp only [AppState.cursor_at] at hcur
  simp only [AppState.cursor_selected] at hsel
  subst hcur
  subst hsel
  simp only [process_event, hi]

/-- Claim C8: `LongPress` on unselected `Preset i` stores the current
`freq_khz` under slot `i`; from any later state back at unselected `Preset i`
whose store still holds `v` in slot `i`, `ShortPress` restores `freq_khz := v`
and emits `SetFrequency v`; if the slot is absent, `ShortPress` is a no-op. -/
theorem C8_preset_round_trip (s s2 : AppState) (nvs nvs2 : Nvs) (i : Nat)
    (name : String) (v : Nat)
    (hi : PRESET_NAMES.get? i = some name)
    (hcur : s.cursor_at = .Preset i) (hsel : s.cursor_selected = false)
    (hcur2 : s2.cursor_at = .Preset i) (hsel2 : s2.cursor_selected = false) :
    (process_event s .LongPress nvs = .ok (s, nvs.set name s.freq_khz, []) ∧
      (nvs.set name s.freq_khz) name = some s.freq_khz) ∧
    (nvs2 name = some v →
      process_event s2 .ShortPress nvs2 =
        .ok ({ s2 with freq_khz := v }, nvs2, [.SetFrequency v])) ∧
    (nvs2 name = none → process_event s2 .ShortPress nvs2 = .ok (s2, nvs2, [])) := by
  refine ⟨⟨process_event_preset_store s nvs i name hcur hsel hi, ?_⟩, ?_, ?_⟩
  · simp [Nvs.set]
  · intro hv
    rw [process_event_preset_recall s2 nvs2 i name hcur2 hsel2 hi, hv]
  · intro hv
    rw [process_event_preset_recall s2 nvs2 i name hcur2 hsel2 hi, hv]

/-- A concrete state: cursor on `Preset 2`, tuned to 95500 kHz. -/
def presetStoreState : AppState :=
  { AppState.new with cursor_at := .Preset 2, freq_khz := 95500 }

/-- A concrete state: cursor back on `Preset 2` after navigating away. -/
def presetRecallState : AppState :=
  { AppState.new with cursor_at := .Preset 2 }

/-- Witness for C8: storing 95500 in `Preset 2` then pressing `Preset 2` from
a fresh state restores `freq_khz = 95500` and emits `SetFrequency 95500`. -/
theorem C8_preset_round_trip_witness :
    process_event presetStoreState .LongPress Nvs.empty =
      .ok (presetStoreState, Nvs.set Nvs.empty "preset3" 95500, []) ∧
    process_event presetRecallState .ShortPress (Nvs.set Nvs.empty "preset3" 95500) =
      .ok ({ presetRecallState with freq_khz := 95500 },
        Nvs.set Nvs.empty "preset3" 95500, [.SetFrequency 95500]) :=
  ⟨(C8_preset_round_trip presetStoreState presetRecallState Nvs.empty
      (Nvs.set Nvs.empty "preset3" 95500) 2 "preset3" 95500 rfl rfl rfl rfl
      rfl).1.1,
   (C8_preset_round_trip presetStoreState presetRecallState Nvs.empty
      (Nvs.set Nvs.empty "preset3" 95500) 2 "preset3" 95500 rfl rfl rfl rfl
      rfl).2.1 (by simp [Nvs.set, Nvs.empty])⟩

lemma cursorInv_step (s : AppState) (ev : InputEvent) (nvs : Nvs) (s1 : AppState)
    (nvs1 : Nvs) (cmds : List OutputCommand)
    (hok : process_event s ev nvs = .ok (s1, nvs1, cmds)) (hinv : CursorInv s) :
    CursorInv s1 := by
  obtain ⟨f, v, si, rs, ca, cs⟩ := s
  cases ev <;> cases cs <;> cases ca <;>
    simp only [process_event] at hok <;>
    (try split at hok) <;>
    (try split at hok)
  all_goals
    first
      | exact Except.noConfusion hok
      | (injection hok with hpair
         injection hpair with hs1 hrest
         subst hs1
         intro hsel1
         first
           | (left; rfl)
           | (right; rfl)
           | (exact hinv hsel1)
           | (simp at hsel1))

/-- Claim C1: every state reachable from `AppState::new` by successful
`process_event` steps satisfies the invariant that the cursor is selected
only while it sits on the frequency or volume control. -/
theorem C1_reachable_cursor_invariant (s : AppState) (nvs : Nvs)
    (h : Reachable s nvs) : CursorInv s := by
  induction h with
  | init nvs0 =>
      intro hsel
      simp [AppState.new] at hsel
  | step s0 nvs0 ev s1 nvs1 cmds hre hok ih =>
      exact cursorInv_step s0 ev nvs0 s1 nvs1 cmds hok ih

/-- Witness for C1 at the initial state. -/
theorem C1_reachable_cursor_invariant_witness : CursorInv AppState.new :=
  C1_reachable_cursor_invariant AppState.new Nvs.empty (Reachable.init Nvs.empty)

/-- Claim C2: under the cursor invariant (and a valid cursor variant), no
input event can drive `process_event` into the final catch-all
`unreachable!()` arm. -/
theorem C2_unreachable_arm_dead (s : AppState) (ev : InputEvent) (nvs : Nvs)
    (hinv : CursorInv s) (hval : ValidState s) :
    process_event s ev nvs ≠ .error .unreachableArm := by
  obtain ⟨f, v, si, rs, ca, cs⟩ := s
  intro hok
  cases ev <;> cases cs <;> cases ca <;>
    simp only [process_event] at hok <;>
    (try split at hok) <;>
    (try split at hok)
  all_goals
    first
      | exact Except.noConfusion hok
      | exact PanicKind.noConfusion (Except.error.inj hok)
      | (rcases hinv rfl with h | h <;> exact UIElement.noConfusion h)

/-- Witness for C2: the initial state with a `ShortPress`. -/
theorem C2_unreachable_arm_dead_witness :
    process_event AppState.new .ShortPress Nvs.empty ≠ .error .unreachableArm :=
  C2_unreachable_arm_dead AppState.new .ShortPress Nvs.empty
    (fun hsel => by simp [AppState.new] at hsel) trivial
